import Mathlib

/-!
Shallow embedding of the doctor-availability and appointment-conflict subsystem
of the `secre_api` repository, together with theorems settling the claims about
its specification.

Embedding conventions:

* Absolute datetimes (`DateTime` columns, Python `datetime` values) are whole
  minutes since an epoch that falls on a Monday at 00:00 UTC, as a `Nat`.
  With that epoch, Python's `datetime.weekday()` (Monday = 0) is
  `dt / 1440 % 7` and `datetime.time()` is `dt % 1440` (minutes past midnight).
  Times of day (`Time` columns) are minutes past midnight, also `Nat`; the
  comparisons the source performs on `datetime.time()` values are the `Nat`
  comparisons on these encodings.
* A database state is the triple of tables the service queries
  (`doctor_availability`, `doctor_blocked_time`, `appointment`), each a list of
  rows.  Every SQLAlchemy `select ... where and_(...)` in the source becomes a
  `List.filter` with the same conjunction of conditions; `order_by(start_time)`
  becomes `List.insertionSort` by `start_time`; `scalars().all()` returns the
  whole filtered list and `scalar_one_or_none()` is modelled by
  `scalar_one_or_none` below, which raises `MultipleResultsFound` on more than
  one row exactly as SQLAlchemy does.
* Fallible operations return `Except`.  `is_time_available` can only fail
  through `scalar_one_or_none`; `create_appointment` can fail with the
  validation error the source raises for `end_utc <= start_utc`.
* Columns that no queried condition or claim inspects (`custom_fields`,
  `notification_state`, `appointment_type_id`, `clinic_id`, `comment`,
  timestamps, surrogate ids) are omitted; they do not influence any modelled
  behaviour.
-/

namespace SecreApi

/-- Minutes in a day; the modulus for the time-of-day component. -/
def minutesPerDay : Nat := 1440

/-- Python `datetime.weekday()` under the minute encoding: Monday = 0. -/
def weekday (dt : Nat) : Nat := dt / minutesPerDay % 7

/-- Python `datetime.time()` under the minute encoding: minutes past midnight. -/
def time_of_day (dt : Nat) : Nat := dt % minutesPerDay

/-- One row of the `doctor_availability` table
(`app/models/doctor_availability.py`, class `DoctorAvailability`). -/
structure AvailabilityRow where
  tenant_id : Nat
  doctor_document_type_id : Int
  doctor_document_number : String
  day_of_week : Nat
  start_time : Nat
  end_time : Nat
  appointment_duration_minutes : Nat
  is_active : Bool
  deriving DecidableEq

/-- One row of the `doctor_blocked_time` table
(`app/models/doctor_availability.py`, class `DoctorBlockedTime`). -/
structure BlockedTimeRow where
  tenant_id : Nat
  doctor_document_type_id : Int
  doctor_document_number : String
  start_datetime : Nat
  end_datetime : Nat
  reason : Option String
  is_active : Bool
  deriving DecidableEq

/-- One row of the `appointment` table (`app/models/appointment.py`). -/
structure AppointmentRow where
  tenant_id : Nat
  start_utc : Nat
  end_utc : Nat
  patient_document_type_id : Int
  patient_document_number : String
  doctor_document_type_id : Int
  doctor_document_number : String
  modality_id : Int
  state_id : Int
  deriving DecidableEq

/-- The tables read and written by the services under verification. -/
structure DBState where
  availabilities : List AvailabilityRow
  blocked_times : List BlockedTimeRow
  appointments : List AppointmentRow
  deriving DecidableEq

/-- One entry of the list returned by
`DoctorAvailabilityService.get_available_time_slots` (the dict built in the
slot loop). -/
structure TimeSlot where
  start_datetime : Nat
  end_datetime : Nat
  doctor_document_type_id : Int
  doctor_document_number : String
  available : Bool
  deriving DecidableEq

/-- Error raised by SQLAlchemy's `Result.scalar_one_or_none` when the result
has more than one row. -/
inductive DBError where
  | multipleResultsFound
  deriving DecidableEq

/-- The `ValidationAPIException` raised by `AppointmentService.create_appointment`. -/
inductive ApiError where
  | validation : String → ApiError
  deriving DecidableEq

instance {ε α : Type} [DecidableEq ε] [DecidableEq α] : DecidableEq (Except ε α) := fun x y =>
  match x, y with
  | .error a, .error b => decidable_of_iff (a = b) (by simp)
  | .error _, .ok _ => isFalse (by simp)
  | .ok _, .error _ => isFalse (by simp)
  | .ok a, .ok b => decidable_of_iff (a = b) (by simp)

/-- SQLAlchemy `Result.scalar_one_or_none()`: `none` on an empty result, the
row on a single-row result, and `MultipleResultsFound` on two or more rows. -/
def scalar_one_or_none {α : Type} (rows : List α) : Except DBError (Option α) :=
  match rows with
  | [] => .ok none
  | [a] => .ok (some a)
  | _ => .error .multipleResultsFound

/-- The half-open interval overlap condition the source writes inline at every
conflict-check site: `a_start < b_end AND a_end > b_start`. -/
def overlaps (a_start a_end b_start b_end : Nat) : Bool :=
  decide (a_start < b_end) && decide (a_end > b_start)

/-- The `DoctorAvailability` query shared by `is_time_available` and
`get_available_time_slots`: all active rows of this tenant and doctor for one
day of the week (`where and_(tenant_id, doctor ids, day_of_week, is_active)`). -/
def availability_rows_for_day (db : DBState) (tenant_id : Nat)
    (doctor_document_type_id : Int) (doctor_document_number : String)
    (day_of_week : Nat) : List AvailabilityRow :=
  db.availabilities.filter fun a =>
    a.tenant_id == tenant_id &&
      (a.doctor_document_type_id == doctor_document_type_id &&
       a.doctor_document_number == doctor_document_number &&
       a.day_of_week == day_of_week &&
       a.is_active)

/-- Ordering used by `get_available_time_slots`'s `order_by(DoctorAvailability.start_time)`. -/
def availLe (a b : AvailabilityRow) : Prop := a.start_time ≤ b.start_time

instance : DecidableRel availLe := fun a b =>
  inferInstanceAs (Decidable (a.start_time ≤ b.start_time))

instance : IsTotal AvailabilityRow availLe := ⟨fun a b => Nat.le_total a.start_time b.start_time⟩

instance : IsTrans AvailabilityRow availLe := ⟨fun _ _ _ => Nat.le_trans⟩

/-- The availability query of `get_available_time_slots`: same filter as
`availability_rows_for_day`, ordered by `start_time`. -/
def slots_availability_records (db : DBState) (tenant_id : Nat)
    (doctor_document_type_id : Int) (doctor_document_number : String)
    (day_of_week : Nat) : List AvailabilityRow :=
  List.insertionSort availLe
    (availability_rows_for_day db tenant_id doctor_document_type_id
      doctor_document_number day_of_week)

/-- The `DoctorBlockedTime` query of `is_time_available`: active rows of this
tenant and doctor with `start_datetime < end_datetime AND end_datetime > start_datetime`
against the queried range. -/
def blocked_rows_overlapping (db : DBState) (tenant_id : Nat)
    (doctor_document_type_id : Int) (doctor_document_number : String)
    (start_datetime end_datetime : Nat) : List BlockedTimeRow :=
  db.blocked_times.filter fun bt =>
    bt.tenant_id == tenant_id &&
      (bt.doctor_document_type_id == doctor_document_type_id &&
       bt.doctor_document_number == doctor_document_number &&
       bt.is_active &&
       overlaps bt.start_datetime bt.end_datetime start_datetime end_datetime)

/-- The `Appointment` query of `is_time_available`: rows of this tenant and
doctor with `start_utc < end_datetime AND end_utc > start_datetime`.  Note the
source filters neither by `state_id` nor by any active flag. -/
def appointment_rows_overlapping (db : DBState) (tenant_id : Nat)
    (doctor_document_type_id : Int) (doctor_document_number : String)
    (start_datetime end_datetime : Nat) : List AppointmentRow :=
  db.appointments.filter fun ap =>
    ap.tenant_id == tenant_id &&
      (ap.doctor_document_type_id == doctor_document_type_id &&
       ap.doctor_document_number == doctor_document_number &&
       overlaps ap.start_utc ap.end_utc start_datetime end_datetime)

/-- The `DoctorBlockedTime` query of `get_available_time_slots`: active rows of
this tenant and doctor whose range intersects `[start_of_day, end_of_day)`. -/
def slots_blocked_times (db : DBState) (tenant_id : Nat)
    (doctor_document_type_id : Int) (doctor_document_number : String)
    (start_of_day end_of_day : Nat) : List BlockedTimeRow :=
  db.blocked_times.filter fun bt =>
    bt.tenant_id == tenant_id &&
      (bt.doctor_document_type_id == doctor_document_type_id &&
       bt.doctor_document_number == doctor_document_number &&
       bt.is_active &&
       (decide (bt.start_datetime < end_of_day) && decide (bt.end_datetime > start_of_day)))

/-- The `Appointment` query of `get_available_time_slots`: rows of this tenant
and doctor with `start_utc >= start_of_day AND start_utc < end_of_day`.  The
source filters by the appointment's start instant, not by range intersection,
and again has no state filter. -/
def slots_appointments (db : DBState) (tenant_id : Nat)
    (doctor_document_type_id : Int) (doctor_document_number : String)
    (start_of_day end_of_day : Nat) : List AppointmentRow :=
  db.appointments.filter fun ap =>
    ap.tenant_id == tenant_id &&
      (ap.doctor_document_type_id == doctor_document_type_id &&
       ap.doctor_document_number == doctor_document_number &&
       (decide (ap.start_utc ≥ start_of_day) && decide (ap.start_utc < end_of_day)))

/-- Embedding of `DoctorAvailabilityService.is_time_available`
(`app/services/doctor_availability_service.py`).  Each `scalar_one_or_none`
mirrors the source's single-row accessor; the three queries are the filters
above. -/
def is_time_available (db : DBState) (tenant_id : Nat)
    (doctor_document_type_id : Int) (doctor_document_number : String)
    (start_datetime end_datetime : Nat) : Except DBError Bool :=
  let day_of_week := weekday start_datetime
  match scalar_one_or_none
    (availability_rows_for_day db tenant_id doctor_document_type_id
      doctor_document_number day_of_week) with
  | .error e => .error e
  | .ok none => .ok false
  | .ok (some availability) =>
    let start_time := time_of_day start_datetime
    let end_time := time_of_day end_datetime
    if start_time < availability.start_time || end_time > availability.end_time then
      .ok false
    else
      match scalar_one_or_none
        (blocked_rows_overlapping db tenant_id doctor_document_type_id
          doctor_document_number start_datetime end_datetime) with
      | .error e => .error e
      | .ok (some _) => .ok false
      | .ok none =>
        match scalar_one_or_none
          (appointment_rows_overlapping db tenant_id doctor_document_type_id
            doctor_document_number start_datetime end_datetime) with
        | .error e => .error e
        | .ok (some _) => .ok false
        | .ok none => .ok true

/-- The `while current_time + duration <= end_time` slot loop of
`get_available_time_slots`, with an explicit fuel argument to totalise it.
For `duration ≥ 1` the loop body runs at most `end_time - current_time` times,
so the fuel `end_time + 1 - current_time` passed by `generate_window_slots`
never runs out and the embedding agrees with the source loop; for
`duration = 0` the source loop would not terminate, while the model truncates
(no claim concerns a non-positive duration, which the spec's data invariant
excludes). -/
def slot_loop (blocked_times : List BlockedTimeRow) (appointments : List AppointmentRow)
    (doctor_document_type_id : Int) (doctor_document_number : String)
    (duration end_time : Nat) : Nat → Nat → List TimeSlot
  | 0, _ => []
  | fuel + 1, current_time =>
    if current_time + duration ≤ end_time then
      let slot_end := current_time + duration
      let is_blocked := blocked_times.any fun bt =>
        overlaps current_time slot_end bt.start_datetime bt.end_datetime
      let is_booked := appointments.any fun ap =>
        overlaps current_time slot_end ap.start_utc ap.end_utc
      { start_datetime := current_time
        end_datetime := slot_end
        doctor_document_type_id := doctor_document_type_id
        doctor_document_number := doctor_document_number
        available := !(is_blocked || is_booked) } ::
        slot_loop blocked_times appointments doctor_document_type_id
          doctor_document_number duration end_time fuel (current_time + duration)
    else []

/-- One availability record's pass through the slot loop, started at
`current_time = combine(date, start_time)` with adequate fuel. -/
def generate_window_slots (blocked_times : List BlockedTimeRow)
    (appointments : List AppointmentRow) (doctor_document_type_id : Int)
    (doctor_document_number : String) (current_time end_time duration : Nat) :
    List TimeSlot :=
  slot_loop blocked_times appointments doctor_document_type_id
    doctor_document_number duration end_time (end_time + 1 - current_time) current_time

/-- Embedding of `DoctorAvailabilityService.get_available_time_slots`.
`start_of_day` is `date.replace(hour=0, minute=0, ...)`, i.e. the encoded day
truncation; `datetime.combine(date.date(), t)` is `start_of_day + t`. -/
def get_available_time_slots (db : DBState) (tenant_id : Nat)
    (doctor_document_type_id : Int) (doctor_document_number : String)
    (date : Nat) : List TimeSlot :=
  let day_of_week := weekday date
  let availability_records := slots_availability_records db tenant_id
    doctor_document_type_id doctor_document_number day_of_week
  if availability_records.isEmpty then []
  else
    let start_of_day := date / minutesPerDay * minutesPerDay
    let end_of_day := start_of_day + minutesPerDay
    let blocked_times := slots_blocked_times db tenant_id doctor_document_type_id
      doctor_document_number start_of_day end_of_day
    let appointments := slots_appointments db tenant_id doctor_document_type_id
      doctor_document_number start_of_day end_of_day
    availability_records.flatMap fun availability =>
      generate_window_slots blocked_times appointments doctor_document_type_id
        doctor_document_number (start_of_day + availability.start_time)
        (start_of_day + availability.end_time)
        availability.appointment_duration_minutes

/-- Embedding of `AppointmentService.create_appointment`
(`app/services/appointment_service.py`): validates only `end_utc > start_utc`,
then unconditionally adds and commits the row.  No availability check, lock,
transaction conflict detection or exclusion constraint is involved; the audit
log write does not affect the tables modelled here. -/
def create_appointment (db : DBState) (tenant_id : Nat) (start_utc end_utc : Nat)
    (patient_document_type_id : Int) (patient_document_number : String)
    (doctor_document_type_id : Int) (doctor_document_number : String)
    (modality_id : Int) (state_id : Int) :
    Except ApiError (DBState × AppointmentRow) :=
  if end_utc ≤ start_utc then
    .error (.validation "End time must be after start time")
  else
    let appointment : AppointmentRow :=
      { tenant_id := tenant_id
        start_utc := start_utc
        end_utc := end_utc
        patient_document_type_id := patient_document_type_id
        patient_document_number := patient_document_number
        doctor_document_type_id := doctor_document_type_id
        doctor_document_number := doctor_document_number
        modality_id := modality_id
        state_id := state_id }
    .ok ({ db with appointments := db.appointments ++ [appointment] }, appointment)

/-- Sortedness predicate of the claim about slot ordering: ascending by
`start_datetime`. -/
def sorted_by_start (slots : List TimeSlot) : Prop :=
  slots.Pairwise fun a b => a.start_datetime ≤ b.start_datetime

instance : DecidablePred sorted_by_start := fun l =>
  inferInstanceAs (Decidable (l.Pairwise _))

/-!
Helper lemmas about the embedding.
-/

theorem scalar_ok_of_length_le_one {α : Type} {rows : List α} (h : rows.length ≤ 1) :
    ∃ o, scalar_one_or_none rows = .ok o := by
  match rows with
  | [] => exact ⟨none, rfl⟩
  | [a] => exact ⟨some a, rfl⟩
  | a :: b :: l => simp at h

theorem scalar_error_of_two_le {α : Type} {rows : List α} (h : 2 ≤ rows.length) :
    scalar_one_or_none rows = .error .multipleResultsFound := by
  match rows with
  | [] => simp at h
  | [a] => simp at h
  | a :: b :: l => rfl

theorem filter_and_factor {α : Type} (q p : α → Bool) (l : List α) :
    (l.filter fun a => q a && p a) = (l.filter q).filter p := by
  induction l with
  | nil => rfl
  | cons a t ih =>
    by_cases hq : q a <;> by_cases hp : p a <;>
      simp [List.filter_cons, hq, hp, ih]

theorem filter_tenant_congr {α : Type} (q p : α → Bool) {l1 l2 : List α}
    (h : l1.filter q = l2.filter q) :
    (l1.filter fun a => q a && p a) = (l2.filter fun a => q a && p a) := by
  rw [filter_and_factor, filter_and_factor, h]

theorem slot_loop_mem {blocked : List BlockedTimeRow} {appts : List AppointmentRow}
    {dtid : Int} {dnum : String} {d endt : Nat} :
    ∀ {fuel cur : Nat} {s : TimeSlot},
      s ∈ slot_loop blocked appts dtid dnum d endt fuel cur →
      cur ≤ s.start_datetime ∧ s.end_datetime = s.start_datetime + d ∧
        s.end_datetime ≤ endt ∧
        s.doctor_document_type_id = dtid ∧ s.doctor_document_number = dnum ∧
        s.available = !(blocked.any (fun bt =>
            overlaps s.start_datetime s.end_datetime bt.start_datetime bt.end_datetime) ||
          appts.any (fun ap =>
            overlaps s.start_datetime s.end_datetime ap.start_utc ap.end_utc)) := by
  intro fuel
  induction fuel with
  | zero => intro cur s hs; simp [slot_loop] at hs
  | succ n ih =>
    intro cur s hs
    rw [slot_loop] at hs
    by_cases hg : cur + d ≤ endt
    · rw [if_pos hg] at hs
      rcases List.mem_cons.mp hs with h | h
      · subst h
        exact ⟨Nat.le_refl _, rfl, hg, rfl, rfl, rfl⟩
      · obtain ⟨h1, h2, h3, h4⟩ := ih h
        exact ⟨Nat.le_trans (Nat.le_add_right cur d) h1, h2, h3, h4⟩
    · rw [if_neg hg] at hs; simp at hs

theorem slot_loop_pairwise {blocked : List BlockedTimeRow} {appts : List AppointmentRow}
    {dtid : Int} {dnum : String} {d endt : Nat} :
    ∀ {fuel cur : Nat},
      (slot_loop blocked appts dtid dnum d endt fuel cur).Pairwise
        (fun s1 s2 => s1.start_datetime + d ≤ s2.start_datetime ∧
          s1.end_datetime = s1.start_datetime + d) := by
  intro fuel
  induction fuel with
  | zero => intro cur; simp [slot_loop]
  | succ n ih =>
    intro cur
    rw [slot_loop]
    by_cases hg : cur + d ≤ endt
    · rw [if_pos hg]
      refine List.pairwise_cons.mpr ⟨?_, ih⟩
      intro s2 hs2
      exact ⟨(slot_loop_mem hs2).1, rfl⟩
    · rw [if_neg hg]; simp

theorem flatMap_window_slots_sorted (blocked : List BlockedTimeRow)
    (appts : List AppointmentRow) (dtid : Int) (dnum : String) (sod : Nat) :
    ∀ ws : List AvailabilityRow,
      ws.Pairwise (fun w1 w2 => w1.end_time ≤ w2.start_time) →
      sorted_by_start (ws.flatMap fun w =>
        generate_window_slots blocked appts dtid dnum (sod + w.start_time)
          (sod + w.end_time) w.appointment_duration_minutes) := by
  intro ws
  induction ws with
  | nil => intro _; simp [sorted_by_start]
  | cons w t ih =>
    intro hp
    rw [List.flatMap_cons]
    unfold sorted_by_start
    rw [List.pairwise_append]
    refine ⟨?_, ih (List.Pairwise.of_cons hp), ?_⟩
    · refine List.Pairwise.imp ?_ slot_loop_pairwise
      intro s1 s2 h
      exact Nat.le_trans (Nat.le_add_right _ _) h.1
    · intro a ha b hb
      obtain ⟨w2, hw2, hbw2⟩ := List.mem_flatMap.mp hb
      obtain ⟨ha1, ha2, ha3, -⟩ := slot_loop_mem ha
      obtain ⟨hb1, -⟩ := slot_loop_mem hbw2
      have hsep : w.end_time ≤ w2.start_time := (List.pairwise_cons.mp hp).1 w2 hw2
      show a.start_datetime ≤ b.start_datetime
      omega

/-!
Concrete database states used by the claim theorems, witnesses and
counterexamples.  Minute encoding: a datetime below 1440 lies on the epoch
Monday, and 540 is 09:00, 570 is 09:30, 600 is 10:00, 630 is 10:30, 660 is
11:00.
-/

/-- Scenario 1 window: Monday 09:00 to 11:00, 30-minute slots, tenant 1,
doctor (1, D1). -/
def mondayWindow : AvailabilityRow := ⟨1, 1, "D1", 0, 540, 660, 30, true⟩

/-- Scenario 1 state: only the Monday window, no blocked times, no appointments. -/
def scenario1DB : DBState := ⟨[mondayWindow], [], []⟩

/-- Integer id of the seeded CANCELLED appointment state
(`alembic/versions/004_change_lookup_tables_to_integer_ids.py`). -/
def cancelledStateId : Int := 5

/-- Scenario 1 plus one CANCELLED appointment 10:00 to 10:30 for the same doctor. -/
def cancelledDB : DBState :=
  ⟨[mondayWindow], [], [⟨1, 600, 630, 2, "P1", 1, "D1", 1, cancelledStateId⟩]⟩

/-- Two active Monday windows for the same doctor: 09:00 to 11:00 and
12:00 to 13:00 (720 to 780). -/
def twoWindowsDB : DBState :=
  ⟨[mondayWindow, ⟨1, 1, "D1", 0, 720, 780, 30, true⟩], [], []⟩

/-- Only the second of the two windows above. -/
def secondWindowDB : DBState := ⟨[⟨1, 1, "D1", 0, 720, 780, 30, true⟩], [], []⟩

/-- Two overlapping active Monday windows: 09:00 to 11:00 with 60-minute slots
and 09:30 to 10:30 (570 to 630) with 30-minute slots. -/
def overlapWindowsDB : DBState :=
  ⟨[⟨1, 1, "D1", 0, 540, 660, 60, true⟩, ⟨1, 1, "D1", 0, 570, 630, 30, true⟩], [], []⟩

/-- A Monday window starting at midnight (00:00 to 01:00), and one appointment
running from Sunday 23:00 of the first week (10020) into Monday 00:30 of the
second week (10110), i.e. starting before the queried day 10080 to 11520 but
ending inside it. -/
def midnightDB : DBState :=
  ⟨[⟨1, 1, "D1", 0, 0, 60, 30, true⟩], [],
   [⟨1, 10020, 10110, 2, "P1", 1, "D1", 1, 1⟩]⟩

/-- No availability windows, but two active blocked intervals (09:50 to 10:20
and 10:10 to 10:40) that both overlap the range 10:00 to 11:00. -/
def noWindowTwoBlockedDB : DBState :=
  ⟨[], [⟨1, 1, "D1", 590, 620, none, true⟩, ⟨1, 1, "D1", 610, 640, none, true⟩], []⟩

/-- Scenario 1 window plus the same two overlapping blocked intervals. -/
def twoBlockedDB : DBState :=
  ⟨[mondayWindow],
   [⟨1, 1, "D1", 590, 620, none, true⟩, ⟨1, 1, "D1", 610, 640, none, true⟩], []⟩

/-- Scenario 1 window plus two appointments that both overlap 10:00 to 10:30. -/
def twoApptDB : DBState :=
  ⟨[mondayWindow], [],
   [⟨1, 600, 630, 2, "P1", 1, "D1", 1, 1⟩, ⟨1, 610, 640, 2, "P2", 1, "D1", 1, 1⟩]⟩

/-- Scenario 1 data for tenant 1 mixed with tenant 2 rows that reuse the same
doctor identity (1, D1): an all-day window, a blocked interval and an
appointment, all of which would change tenant 1's answers if tenant scoping
leaked. -/
def mixedTenantDB : DBState :=
  ⟨[mondayWindow, ⟨2, 1, "D1", 0, 0, 1440, 30, true⟩],
   [⟨2, 1, "D1", 590, 640, none, true⟩],
   [⟨2, 600, 630, 2, "P9", 1, "D1", 1, 1⟩]⟩

/-!
Claim theorems.
-/

/-- C1: the check-then-act race is real in the code.  In the interleaving
where both requests run `is_time_available` against the initial state before
either insert commits, both checks return `true`, both `create_appointment`
calls succeed (no conflict outcome exists), and the final state holds two
committed overlapping appointments for the same tenant and doctor — the code
has no transaction, exclusion constraint or per-doctor lock making the check
and the insert atomic. -/
theorem double_booking_race_unguarded :
    ∃ (db1 db2 : DBState) (ap1 ap2 : AppointmentRow),
      is_time_available scenario1DB 1 1 "D1" 600 630 = .ok true ∧
      is_time_available scenario1DB 1 1 "D1" 600 630 = .ok true ∧
      create_appointment scenario1DB 1 600 630 2 "P1" 1 "D1" 1 1 = .ok (db1, ap1) ∧
      create_appointment db1 1 600 630 2 "P2" 1 "D1" 1 1 = .ok (db2, ap2) ∧
      (db2.appointments.filter fun ap =>
        ap.doctor_document_type_id == 1 && ap.doctor_document_number == "D1" &&
          overlaps ap.start_utc ap.end_utc 600 630).length = 2 := by
  refine ⟨_, _, _, _, by decide, by decide, rfl, rfl, by decide⟩

/-- C2: with two active windows on the queried weekday the code does not
return a boolean — `scalar_one_or_none` on the availability query raises
`MultipleResultsFound` — even though the queried range 12:00 to 12:30 is fully
contained in the second window, as the third conjunct shows by removing the
first window. -/
theorem multi_window_check_raises :
    (availability_rows_for_day twoWindowsDB 1 1 "D1" 0).length = 2 ∧
    is_time_available twoWindowsDB 1 1 "D1" 720 750 = .error .multipleResultsFound ∧
    is_time_available secondWindowDB 1 1 "D1" 720 750 = .ok true := by
  refine ⟨by decide, by decide, by decide⟩

/-- C3: the code never filters appointments by state, so an appointment in the
seeded CANCELLED state still excludes availability: the 10:00 slot is
annotated `available = false` and `is_time_available` returns `false` for
10:00 to 10:30, although the only conflicting appointment is cancelled. -/
theorem cancelled_appointment_still_excludes :
    cancelledDB.appointments.all (fun ap => ap.state_id == cancelledStateId) = true ∧
    get_available_time_slots cancelledDB 1 1 "D1" 0 =
      [⟨540, 570, 1, "D1", true⟩, ⟨570, 600, 1, "D1", true⟩,
       ⟨600, 630, 1, "D1", false⟩, ⟨630, 660, 1, "D1", true⟩] ∧
    is_time_available cancelledDB 1 1 "D1" 600 630 = .ok false := by
  refine ⟨by decide, by decide, by decide⟩

/-- C4 counterexample: an appointment that starts before 00:00 of the queried
day but ends inside it (Sunday 23:00 to Monday 00:30) is not loaded by the
slots query, so the 00:00 to 00:30 slot it overlaps is returned with
`available = true`, contradicting the claim that such a slot is marked
`available = false`. -/
theorem midnight_spanning_appointment_ignored :
    overlaps 10080 10110 10020 10110 = true ∧
    get_available_time_slots midnightDB 1 1 "D1" 10080 =
      [⟨10080, 10110, 1, "D1", true⟩, ⟨10110, 10140, 1, "D1", true⟩] := by
  refine ⟨by decide, by decide⟩

/-- C4 (amended): only appointments whose start instant lies inside the UTC
day `[date 00:00, date+1 00:00)` are considered by `get_available_time_slots`;
every such matching appointment does exclude the candidate slots it overlaps —
any returned slot overlapping it is annotated `available = false`. -/
theorem in_day_appointment_excludes_slot (db : DBState) (tenant : Nat) (dtid : Int)
    (dnum : String) (date : Nat) (ap : AppointmentRow) (s : TimeSlot)
    (hap : ap ∈ db.appointments) (ht : ap.tenant_id = tenant)
    (hd1 : ap.doctor_document_type_id = dtid) (hd2 : ap.doctor_document_number = dnum)
    (hs1 : date / minutesPerDay * minutesPerDay ≤ ap.start_utc)
    (hs2 : ap.start_utc < date / minutesPerDay * minutesPerDay + minutesPerDay)
    (hmem : s ∈ get_available_time_slots db tenant dtid dnum date)
    (hov : overlaps s.start_datetime s.end_datetime ap.start_utc ap.end_utc = true) :
    s.available = false := by
  simp only [get_available_time_slots] at hmem
  by_cases he : (slots_availability_records db tenant dtid dnum (weekday date)).isEmpty
  · rw [if_pos he] at hmem; simp at hmem
  · rw [if_neg he] at hmem
    obtain ⟨w, hw, hsw⟩ := List.mem_flatMap.mp hmem
    have hm := slot_loop_mem hsw
    have hmem_ap : ap ∈ slots_appointments db tenant dtid dnum
        (date / minutesPerDay * minutesPerDay)
        (date / minutesPerDay * minutesPerDay + minutesPerDay) := by
      unfold slots_appointments
      refine List.mem_filter.mpr ⟨hap, ?_⟩
      simp [ht, hd1, hd2, hs1, hs2]
    have hbooked : (slots_appointments db tenant dtid dnum
        (date / minutesPerDay * minutesPerDay)
        (date / minutesPerDay * minutesPerDay + minutesPerDay)).any
          (fun a2 => overlaps s.start_datetime s.end_datetime a2.start_utc a2.end_utc)
          = true :=
      List.any_eq_true.mpr ⟨ap, hmem_ap, hov⟩
    rw [hm.2.2.2.2.2, hbooked]
    simp

/-- Witness for the amended C4 theorem at a concrete state: the in-day
appointment 10:00 to 10:30 of `cancelledDB` forces the returned 10:00 slot to
`available = false`. -/
theorem in_day_appointment_excludes_slot_witness :
    (⟨600, 630, 1, "D1", false⟩ : TimeSlot).available = false :=
  in_day_appointment_excludes_slot cancelledDB 1 1 "D1" 0
    ⟨1, 600, 630, 2, "P1", 1, "D1", 1, cancelledStateId⟩ ⟨600, 630, 1, "D1", false⟩
    (by decide) rfl rfl rfl (by decide) (by decide) (by decide) (by decide)

/-- C5 counterexample: for the malformed range 11:00 to 10:00 (start after
end) inside the Scenario 1 window, `is_time_available` returns `true`, not
`false` as the claim states. -/
theorem malformed_range_returns_true_cex :
    660 ≥ 600 ∧ is_time_available scenario1DB 1 1 "D1" 660 600 = .ok true := by
  refine ⟨by decide, by decide⟩

/-- C5 (amended): a malformed range with `start_utc >= end_utc` does not raise
an error as long as each single-row query matches at most one row — the
operation still returns a boolean produced by the ordinary containment and
overlap checks — but that boolean is not guaranteed to be `false` (see the
counterexample, where it is `true`). -/
theorem malformed_range_yields_plain_bool (db : DBState) (tenant : Nat) (dtid : Int)
    (dnum : String) (sdt edt : Nat) (_hmal : edt ≤ sdt)
    (h1 : (availability_rows_for_day db tenant dtid dnum (weekday sdt)).length ≤ 1)
    (h2 : (blocked_rows_overlapping db tenant dtid dnum sdt edt).length ≤ 1)
    (h3 : (appointment_rows_overlapping db tenant dtid dnum sdt edt).length ≤ 1) :
    ∃ b, is_time_available db tenant dtid dnum sdt edt = .ok b := by
  cases hrows : availability_rows_for_day db tenant dtid dnum (weekday sdt) with
  | nil =>
    have e1 : scalar_one_or_none
        (availability_rows_for_day db tenant dtid dnum (weekday sdt)) = .ok none := by
      rw [hrows]; rfl
    exact ⟨false, by simp only [is_time_available, e1]⟩
  | cons w t =>
    cases t with
    | cons w2 t2 =>
      rw [hrows] at h1
      simp at h1
    | nil =>
      have e1 : scalar_one_or_none
          (availability_rows_for_day db tenant dtid dnum (weekday sdt))
          = .ok (some w) := by
        rw [hrows]; rfl
      simp only [is_time_available, e1]
      rcases Bool.eq_false_or_eq_true
        (time_of_day sdt < w.start_time || time_of_day edt > w.end_time)
        with hcond | hcond
      · rw [hcond]
        exact ⟨false, by simp⟩
      · rw [hcond]
        simp only [Bool.false_eq_true, if_false]
        cases hbl : blocked_rows_overlapping db tenant dtid dnum sdt edt with
        | cons b t =>
          cases t with
          | cons b2 t2 =>
            rw [hbl] at h2
            simp at h2
          | nil =>
            exact ⟨false, by simp [scalar_one_or_none]⟩
        | nil =>
          simp only [scalar_one_or_none]
          cases hapr : appointment_rows_overlapping db tenant dtid dnum sdt edt with
          | cons a t =>
            cases t with
            | cons a2 t2 =>
              rw [hapr] at h3
              simp at h3
            | nil =>
              exact ⟨false, by simp [scalar_one_or_none]⟩
          | nil =>
            exact ⟨true, by simp [scalar_one_or_none]⟩

/-- Witness for the amended C5 theorem: the malformed range 11:00 to 10:00
against `scenario1DB` satisfies all the row-multiplicity bounds and yields a
plain boolean. -/
theorem malformed_range_yields_plain_bool_witness :
    ∃ b, is_time_available scenario1DB 1 1 "D1" 660 600 = .ok b :=
  malformed_range_yields_plain_bool scenario1DB 1 1 "D1" 660 600
    (by decide) (by decide) (by decide) (by decide)

/-- C6: the overlap primitive is exactly half-open interval overlap: it is
symmetric in the two intervals, true on any interval against itself when the
interval is non-degenerate, and false for intervals that merely share an
endpoint, so back-to-back bookings are permitted. -/
theorem overlaps_halfopen_algebra :
    (∀ a b c d : Nat, overlaps a b c d = overlaps c d a b) ∧
    (∀ a b : Nat, a < b → overlaps a b a b = true) ∧
    (∀ a b c : Nat, overlaps a b b c = false) := by
  refine ⟨?_, ?_, ?_⟩
  · intro a b c d
    unfold overlaps
    rw [Bool.and_comm]
  · intro a b h
    simp [overlaps, h]
  · intro a b c
    simp [overlaps]

/-- Witness for C6 at concrete values: 10:00 to 11:00 is non-degenerate and
overlaps itself. -/
theorem overlaps_halfopen_algebra_witness : overlaps 600 660 600 660 = true :=
  overlaps_halfopen_algebra.2.1 600 660 (by decide)

/-- C7: for positive slot duration every generated slot starts no earlier than
the window start, is exactly the duration long and ends no later than the
window end; the slots are pairwise non-overlapping and strictly ascending by
start time; and Scenario 1 (Monday window 09:00 to 11:00, 30-minute duration,
no blocks or bookings) yields exactly the four slots 09:00, 09:30, 10:00,
10:30, all available. -/
theorem slot_generation_shape :
    (∀ (blocked : List BlockedTimeRow) (appts : List AppointmentRow) (dtid : Int)
       (dnum : String) (cur endt d : Nat), 0 < d →
       (∀ s ∈ generate_window_slots blocked appts dtid dnum cur endt d,
          cur ≤ s.start_datetime ∧ s.end_datetime = s.start_datetime + d ∧
            s.end_datetime ≤ endt) ∧
       (generate_window_slots blocked appts dtid dnum cur endt d).Pairwise
         (fun s1 s2 => s1.start_datetime < s2.start_datetime ∧
           overlaps s1.start_datetime s1.end_datetime s2.start_datetime s2.end_datetime
             = false)) ∧
    get_available_time_slots scenario1DB 1 1 "D1" 0 =
      [⟨540, 570, 1, "D1", true⟩, ⟨570, 600, 1, "D1", true⟩,
       ⟨600, 630, 1, "D1", true⟩, ⟨630, 660, 1, "D1", true⟩] := by
  constructor
  · intro blocked appts dtid dnum cur endt d hd
    constructor
    · intro s hs
      obtain ⟨h1, h2, h3, -⟩ := slot_loop_mem hs
      exact ⟨h1, h2, h3⟩
    · refine List.Pairwise.imp ?_ slot_loop_pairwise
      intro s1 s2 h
      obtain ⟨hle, he⟩ := h
      refine ⟨by omega, ?_⟩
      have hn : ¬ s2.start_datetime < s1.end_datetime := by omega
      simp [overlaps, hn]
  · decide

/-- Witness for C7 with the positive-duration hypothesis discharged at the
Scenario 1 window boundaries. -/
theorem slot_generation_shape_witness :
    (∀ s ∈ generate_window_slots [] [] 1 "D1" 540 660 30,
        540 ≤ s.start_datetime ∧ s.end_datetime = s.start_datetime + 30 ∧
          s.end_datetime ≤ 660) ∧
    (generate_window_slots [] [] 1 "D1" 540 660 30).Pairwise
      (fun s1 s2 => s1.start_datetime < s2.start_datetime ∧
        overlaps s1.start_datetime s1.end_datetime s2.start_datetime s2.end_datetime
          = false) :=
  slot_generation_shape.1 [] [] 1 "D1" 540 660 30 (by decide)

/-- C8 counterexample: with two overlapping windows (09:00 to 11:00 at 60
minutes and 09:30 to 10:30 at 30 minutes) the returned slot starts are
540, 600, 570, 600 — the full sequence is not sorted ascending by
`start_datetime`, because the code concatenates per-window slots and never
sorts the final output. -/
theorem overlapping_windows_unsorted_cex :
    ¬ sorted_by_start (get_available_time_slots overlapWindowsDB 1 1 "D1" 0) := by
  decide

/-- C8 (amended): the full slot sequence is sorted ascending by
`start_datetime` whenever the loaded windows for the day are pairwise
non-overlapping (each earlier window ends no later than each later one
starts, in the order produced by the `start_time`-ordered query); the code
performs no final sort, so with overlapping windows the output can be
unsorted (see the counterexample). -/
theorem slots_sorted_of_separated_windows (db : DBState) (tenant : Nat) (dtid : Int)
    (dnum : String) (date : Nat)
    (h : (slots_availability_records db tenant dtid dnum (weekday date)).Pairwise
        (fun w1 w2 => w1.end_time ≤ w2.start_time)) :
    sorted_by_start (get_available_time_slots db tenant dtid dnum date) := by
  simp only [get_available_time_slots]
  by_cases he : (slots_availability_records db tenant dtid dnum (weekday date)).isEmpty
  · rw [if_pos he]
    exact List.Pairwise.nil
  · rw [if_neg he]
    exact flatMap_window_slots_sorted _ _ _ _ _ _ h

/-- Witness for the amended C8 theorem: the two disjoint windows of
`twoWindowsDB` produce a sorted slot sequence. -/
theorem slots_sorted_of_separated_windows_witness :
    sorted_by_start (get_available_time_slots twoWindowsDB 1 1 "D1" 0) :=
  slots_sorted_of_separated_windows twoWindowsDB 1 1 "D1" 0 (by decide)

/-- C9: tenant noninterference.  If two database states agree on every row of
tenant `tenant` in all three tables, then `get_available_time_slots` and
`is_time_available` called with that tenant id return identical results,
whatever the other tenants' rows are — every query filters on
`tenant_id` first. -/
theorem tenant_noninterference (db1 db2 : DBState) (tenant : Nat) (dtid : Int)
    (dnum : String) (date sdt edt : Nat)
    (ha : db1.availabilities.filter (fun a => a.tenant_id == tenant) =
          db2.availabilities.filter (fun a => a.tenant_id == tenant))
    (hb : db1.blocked_times.filter (fun bt => bt.tenant_id == tenant) =
          db2.blocked_times.filter (fun bt => bt.tenant_id == tenant))
    (hc : db1.appointments.filter (fun ap => ap.tenant_id == tenant) =
          db2.appointments.filter (fun ap => ap.tenant_id == tenant)) :
    get_available_time_slots db1 tenant dtid dnum date =
      get_available_time_slots db2 tenant dtid dnum date ∧
    is_time_available db1 tenant dtid dnum sdt edt =
      is_time_available db2 tenant dtid dnum sdt edt := by
  have qa : ∀ dow, availability_rows_for_day db1 tenant dtid dnum dow =
      availability_rows_for_day db2 tenant dtid dnum dow := by
    intro dow
    unfold availability_rows_for_day
    exact filter_tenant_congr _ _ ha
  have qs : ∀ dow, slots_availability_records db1 tenant dtid dnum dow =
      slots_availability_records db2 tenant dtid dnum dow := by
    intro dow
    unfold slots_availability_records
    rw [qa]
  have qb : ∀ x y, blocked_rows_overlapping db1 tenant dtid dnum x y =
      blocked_rows_overlapping db2 tenant dtid dnum x y := by
    intro x y
    unfold blocked_rows_overlapping
    exact filter_tenant_congr _ _ hb
  have qsb : ∀ x y, slots_blocked_times db1 tenant dtid dnum x y =
      slots_blocked_times db2 tenant dtid dnum x y := by
    intro x y
    unfold slots_blocked_times
    exact filter_tenant_congr _ _ hb
  have qap : ∀ x y, appointment_rows_overlapping db1 tenant dtid dnum x y =
      appointment_rows_overlapping db2 tenant dtid dnum x y := by
    intro x y
    unfold appointment_rows_overlapping
    exact filter_tenant_congr _ _ hc
  have qsa : ∀ x y, slots_appointments db1 tenant dtid dnum x y =
      slots_appointments db2 tenant dtid dnum x y := by
    intro x y
    unfold slots_appointments
    exact filter_tenant_congr _ _ hc
  constructor
  · simp only [get_available_time_slots, qs, qsb, qsa]
  · simp only [is_time_available, qa, qb, qap]

/-- Witness for C9: adding tenant 2 rows that reuse doctor identity (1, D1) —
an all-day window, a blocked interval over 10:00 to 10:30 and an appointment
at 10:00 to 10:30 — leaves tenant 1's slot list and availability answer
unchanged. -/
theorem tenant_noninterference_witness :
    get_available_time_slots scenario1DB 1 1 "D1" 0 =
      get_available_time_slots mixedTenantDB 1 1 "D1" 0 ∧
    is_time_available scenario1DB 1 1 "D1" 600 630 =
      is_time_available mixedTenantDB 1 1 "D1" 600 630 :=
  tenant_noninterference scenario1DB mixedTenantDB 1 1 "D1" 0 600 630
    (by decide) (by decide) (by decide)

/-- C10 counterexample: with no availability window and two active blocked
intervals both overlapping the queried range, `is_time_available` returns the
boolean `false` instead of raising — the single-row accessors are never
reached, refuting the claim that two or more overlapping blocked intervals
always make them raise instead of returning `false`. -/
theorem ok_false_despite_two_blocked_cex :
    2 ≤ (blocked_rows_overlapping noWindowTwoBlockedDB 1 1 "D1" 600 660).length ∧
    is_time_available noWindowTwoBlockedDB 1 1 "D1" 600 660 = .ok false := by
  refine ⟨by decide, by decide⟩

/-- C10 (amended): once the earlier checks pass — the availability query
returns exactly one row and the containment test succeeds — two or more
active blocked intervals overlapping the range make `is_time_available` raise
`MultipleResultsFound` instead of returning a boolean; and when additionally
no blocked interval matches, two or more overlapping appointments make it
raise the same way. -/
theorem multirow_overlap_accessor_raises (db : DBState) (tenant : Nat) (dtid : Int)
    (dnum : String) (sdt edt : Nat) (w : AvailabilityRow)
    (hw : availability_rows_for_day db tenant dtid dnum (weekday sdt) = [w])
    (hc1 : ¬ time_of_day sdt < w.start_time)
    (hc2 : ¬ w.end_time < time_of_day edt) :
    (2 ≤ (blocked_rows_overlapping db tenant dtid dnum sdt edt).length →
      is_time_available db tenant dtid dnum sdt edt = .error .multipleResultsFound) ∧
    (blocked_rows_overlapping db tenant dtid dnum sdt edt = [] →
      2 ≤ (appointment_rows_overlapping db tenant dtid dnum sdt edt).length →
      is_time_available db tenant dtid dnum sdt edt = .error .multipleResultsFound) := by
  have e1 : scalar_one_or_none
      (availability_rows_for_day db tenant dtid dnum (weekday sdt)) = .ok (some w) := by
    rw [hw]; rfl
  have hcond : (time_of_day sdt < w.start_time || time_of_day edt > w.end_time)
      = false := by
    simp [hc1, hc2]
  constructor
  · intro hb
    simp only [is_time_available, e1]
    rw [hcond]
    simp only [Bool.false_eq_true, if_false]
    rw [scalar_error_of_two_le hb]
  · intro hbe hap
    simp only [is_time_available, e1]
    rw [hcond]
    simp only [Bool.false_eq_true, if_false]
    rw [hbe]
    show (match scalar_one_or_none
        (appointment_rows_overlapping db tenant dtid dnum sdt edt) with
      | .error e => (.error e : Except DBError Bool)
      | .ok (some _) => .ok false
      | .ok none => .ok true) = .error .multipleResultsFound
    rw [scalar_error_of_two_le hap]

/-- Witness for the amended C10 theorem: two overlapping blocked intervals
(resp. two overlapping appointments) under the Scenario 1 window make
`is_time_available` raise on the 10:00 to 10:30 query. -/
theorem multirow_overlap_accessor_raises_witness :
    is_time_available twoBlockedDB 1 1 "D1" 600 630 = .error .multipleResultsFound ∧
    is_time_available twoApptDB 1 1 "D1" 600 630 = .error .multipleResultsFound :=
  ⟨(multirow_overlap_accessor_raises twoBlockedDB 1 1 "D1" 600 630 mondayWindow
      (by decide) (by decide) (by decide)).1 (by decide),
   (multirow_overlap_accessor_raises twoApptDB 1 1 "D1" 600 630 mondayWindow
      (by decide) (by decide) (by decide)).2 (by decide) (by decide)⟩

end SecreApi
